import Mathlib

/-!
Verification of the change-classification and report-synthesis engine of the
CppCompilerCompliance repository, together with its sqlite-backed history store.

The Go sources hold two revisions of `compliance/feature.go`.  The shared data
model and the helpers that agree between the two revisions are embedded once;
the revision-specific renderers live in namespaces `V1` (the revision with the
pluralised "Support text(s) changed" wording) and `V2` (the revision with the
"[New Listing]" / "[Support Update]" / "[Text Update]" templates).
-/

/-- Embeds Go's `sql.NullString`: a string plus a validity flag.  Two values
compare equal exactly when both fields agree, as Go's `!=` on the struct does. -/
structure NullString where
  valid : Bool
  str : String
deriving DecidableEq, Repr

/-- Embeds the `Feature` struct of `compliance/feature.go`.  `time.Time` is
modelled as a natural-number timestamp; Go `int` fields become `Int`. -/
structure Feature where
  name : String
  timestamp : Nat
  cppVersion : Int
  paperName : NullString
  paperLink : NullString
  gccSupport : Int
  gccDisplayText : NullString
  gccExtraText : NullString
  clangSupport : Int
  clangDisplayText : NullString
  clangExtraText : NullString
  msvcSupport : Int
  msvcDisplayText : NullString
  msvcExtraText : NullString
  reportedToTwitter : Bool
  reportedBroken : Bool
deriving DecidableEq, Repr

def TwitterLimit : Nat := 280

def CppRefLinkSize : Nat := "https://en.cppreference.com/w/cpp/compiler_support".length

def TwitterShortUrlSize : Nat := "https://t.co/iqNEBAK9qG".length

def TrimLimit : Nat := TwitterLimit + (CppRefLinkSize - TwitterShortUrlSize)

/-- Takes the first `n` characters of a string; embeds Go's slice `text[0:n]`. -/
def strTake (s : String) (n : Nat) : String := ⟨s.data.take n⟩

/-- Embeds `twitterTrimmed`: text longer than `TrimLimit` is cut to
`TrimLimit - 3` characters with `"..."` appended, shorter text passes through. -/
def twitterTrimmed (text : String) : String :=
  if text.length > TrimLimit then strTake text (TrimLimit - 3) ++ "..." else text

/-- Embeds `fromNullString`: the carried string when valid, `""` otherwise. -/
def fromNullString (text : NullString) : String :=
  if text.valid then text.str else ""

/-- Embeds `compilerVersionTextString`: the display text, with the extra text
appended in parentheses when it is non-empty. -/
def compilerVersionTextString (displayText : String) (extraText : String) : String :=
  if extraText.length > 0 then displayText ++ "(" ++ extraText ++ ")" else displayText

/-- Embeds `isReportTypeNewFeatureAdded`: `previous == nil && next != nil`. -/
def isReportTypeNewFeatureAdded (previous next : Option Feature) : Bool :=
  previous.isNone && next.isSome

/-- Embeds `isReportTypeSupportLevelChanged` on two dereferenced features:
true when any vendor's support level differs. -/
def isReportTypeSupportLevelChanged (previous next : Feature) : Bool :=
  decide (previous.gccSupport ≠ next.gccSupport) ||
  decide (previous.clangSupport ≠ next.clangSupport) ||
  decide (previous.msvcSupport ≠ next.msvcSupport)

/-- Embeds `isReportTypeTextChanged` on two dereferenced features: true when
any vendor's display text or extra text differs. -/
def isReportTypeTextChanged (previous next : Feature) : Bool :=
  decide (previous.gccDisplayText ≠ next.gccDisplayText) ||
  decide (previous.gccExtraText ≠ next.gccExtraText) ||
  decide (previous.clangDisplayText ≠ next.clangDisplayText) ||
  decide (previous.clangExtraText ≠ next.clangExtraText) ||
  decide (previous.msvcDisplayText ≠ next.msvcDisplayText) ||
  decide (previous.msvcExtraText ≠ next.msvcExtraText)

/-- Embeds the per-vendor flag `gccTextChanged` computed in the TextChanged
branch of `FeatureToTwitterReport` (both revisions compute it identically). -/
def gccTextChanged (previous next : Feature) : Bool :=
  decide (previous.gccDisplayText ≠ next.gccDisplayText) ||
  decide (previous.gccExtraText ≠ next.gccExtraText)

/-- Embeds the per-vendor flag `clangTextChanged`. -/
def clangTextChanged (previous next : Feature) : Bool :=
  decide (previous.clangDisplayText ≠ next.clangDisplayText) ||
  decide (previous.clangExtraText ≠ next.clangExtraText)

/-- Embeds the per-vendor flag `msvcTextChanged`. -/
def msvcTextChanged (previous next : Feature) : Bool :=
  decide (previous.msvcDisplayText ≠ next.msvcDisplayText) ||
  decide (previous.msvcExtraText ≠ next.msvcExtraText)

/-- The four change categories of the classifier (the ordered guard chain at
the top of `FeatureToTwitterReport`). -/
inductive Category where
  | NewListing
  | SupportLevelChanged
  | TextChanged
  | Unclassified
deriving DecidableEq, Repr

/-- The classifier: the guard chain of `FeatureToTwitterReport`, evaluated in
source order (new-listing first, then support level, then text). -/
def classify (previous : Option Feature) (next : Feature) : Category :=
  match previous with
  | none => Category.NewListing
  | some p =>
    if isReportTypeSupportLevelChanged p next then Category.SupportLevelChanged
    else if isReportTypeTextChanged p next then Category.TextChanged
    else Category.Unclassified

namespace V2

/-- Embeds revision-2 `compilerSupportString`: `[no]`, `[yes] text`, or
`[partial] text` depending on the support level. -/
def compilerSupportString (support : Int) (displayText : String) (extraText : String) : String :=
  if support = 0 then "[no]"
  else if support = 1 then "[yes] " ++ compilerVersionTextString displayText extraText
  else "[partial] " ++ compilerVersionTextString displayText extraText

/-- Embeds `compilerSupportListing`: one `"<vendor> - <supportString>"` line per
requested vendor, separated by newlines, in GCC, Clang, MSVC order. -/
def compilerSupportListing (feature : Feature) (listGcc listClang listMsvc : Bool) : String :=
  let gccBit := "GCC - " ++ compilerSupportString feature.gccSupport
      (fromNullString feature.gccDisplayText) (fromNullString feature.gccExtraText)
  let clangBit := "Clang - " ++ compilerSupportString feature.clangSupport
      (fromNullString feature.clangDisplayText) (fromNullString feature.clangExtraText)
  let msvcBit := "MSVC - " ++ compilerSupportString feature.msvcSupport
      (fromNullString feature.msvcDisplayText) (fromNullString feature.msvcExtraText)
  let result := ""
  let first := true
  let step1 : String × Bool := if listGcc then (result ++ gccBit, false) else (result, first)
  let step2 : String × Bool :=
    if listClang then ((if step1.2 then step1.1 else step1.1 ++ "\n") ++ clangBit, false)
    else step1
  let step3 : String :=
    if listMsvc then (if step2.2 then step2.1 else step2.1 ++ "\n") ++ msvcBit
    else step2.1
  step3

/-- Embeds the `[New Listing]` branch body of revision-2
`FeatureToTwitterReport`, trimming included. -/
def newListingReport (next : Feature) : String × Option String :=
  let supportListing := compilerSupportListing next true true true
  let reportText := "[New Listing] C++" ++ toString next.cppVersion ++ " - \"" ++ next.name
      ++ "\".\n\nSupport:\n" ++ supportListing
  (twitterTrimmed reportText, none)

/-- Embeds the `[Support Update]` branch body of revision-2
`FeatureToTwitterReport`: a from/to block listing only vendors whose support
level changed. -/
def supportUpdateReport (previous next : Feature) : String × Option String :=
  let listGcc := decide (previous.gccSupport ≠ next.gccSupport)
  let listClang := decide (previous.clangSupport ≠ next.clangSupport)
  let listMsvc := decide (previous.msvcSupport ≠ next.msvcSupport)
  let previousSupportListing := compilerSupportListing previous listGcc listClang listMsvc
  let nextSupportListing := compilerSupportListing next listGcc listClang listMsvc
  let reportText := "[Support Update] C++" ++ toString next.cppVersion ++ " - \"" ++ next.name
      ++ "\".\n\nFrom:\n" ++ previousSupportListing ++ "\n\nto:\n" ++ nextSupportListing
  (twitterTrimmed reportText, none)

/-- Embeds the `[Text Update]` branch body of revision-2
`FeatureToTwitterReport`: a from/to block listing only vendors whose display
or extra text changed. -/
def textUpdateReport (previous next : Feature) : String × Option String :=
  let listGcc := gccTextChanged previous next
  let listClang := clangTextChanged previous next
  let listMsvc := msvcTextChanged previous next
  let previousSupportListing := compilerSupportListing previous listGcc listClang listMsvc
  let nextSupportListing := compilerSupportListing next listGcc listClang listMsvc
  let reportText := "[Text Update] C++" ++ toString next.cppVersion ++ " - \"" ++ next.name
      ++ "\".\n\nFrom:\n" ++ previousSupportListing ++ "\n\nto:\n" ++ nextSupportListing
  (twitterTrimmed reportText, none)

/-- Embeds revision-2 `FeatureToTwitterReport` under the precondition that
`next` is non-nil: the Go pair `(string, error)` becomes
`String × Option String`, the error being `some "cannot handle"` in the
fall-through branch.  The nil-pointer-faithful embedding, with `next` also
optional, is `FeatureToTwitterReportP` below. -/
def FeatureToTwitterReport (previous : Option Feature) (next : Feature) : String × Option String :=
  match previous with
  | none => newListingReport next
  | some p =>
    if isReportTypeSupportLevelChanged p next then supportUpdateReport p next
    else if isReportTypeTextChanged p next then textUpdateReport p next
    else ("", some "cannot handle")

/-- Embeds `isReportTypeSupportLevelChanged` at the pointer level: the Go body
dereferences both arguments, so a nil argument means a panic, modelled as
`none`. -/
def isReportTypeSupportLevelChangedP (previous next : Option Feature) : Option Bool :=
  match previous, next with
  | some p, some n => some (isReportTypeSupportLevelChanged p n)
  | _, _ => none

/-- Embeds revision-2 `FeatureToTwitterReport` at the pointer level: both
arguments are optional and `none` as a result models a nil-pointer panic.
Past the new-listing guard, the next guard `isReportTypeSupportLevelChanged`
dereferences both pointers, so any remaining nil argument panics before any
later branch can run. -/
def FeatureToTwitterReportP (previous next : Option Feature) :
    Option (String × Option String) :=
  if isReportTypeNewFeatureAdded previous next then
    match next with
    | some n => some (newListingReport n)
    | none => none
  else
    match previous, next with
    | some p, some n =>
      if isReportTypeSupportLevelChanged p n then some (supportUpdateReport p n)
      else if isReportTypeTextChanged p n then some (textUpdateReport p n)
      else some ("", some "cannot handle")
    | _, _ => none

end V2

/-- A sample feature with every optional field unset, support levels at zero
and flags cleared; concrete scenarios below adjust individual fields. -/
def baseFeature : Feature where
  name := ""
  timestamp := 0
  cppVersion := 0
  paperName := ⟨false, ""⟩
  paperLink := ⟨false, ""⟩
  gccSupport := 0
  gccDisplayText := ⟨false, ""⟩
  gccExtraText := ⟨false, ""⟩
  clangSupport := 0
  clangDisplayText := ⟨false, ""⟩
  clangExtraText := ⟨false, ""⟩
  msvcSupport := 0
  msvcDisplayText := ⟨false, ""⟩
  msvcExtraText := ⟨false, ""⟩
  reportedToTwitter := false
  reportedBroken := false

/-- Previous snapshot of the concrete support-level scenario: name "X",
spec version 17, GCC unsupported, Clang fully supported since "6", MSVC
unsupported. -/
def scenarioPrev : Feature :=
  { baseFeature with
    name := "X"
    cppVersion := 17
    clangSupport := 1
    clangDisplayText := ⟨true, "6"⟩ }

/-- Next snapshot of the concrete support-level scenario: identical to
`scenarioPrev` except GCC becomes fully supported with display "9" and extra
"still buggy". -/
def scenarioNext : Feature :=
  { scenarioPrev with
    gccSupport := 1
    gccDisplayText := ⟨true, "9"⟩
    gccExtraText := ⟨true, "still buggy"⟩ }

/-- C1: classifying `(none, B)` always yields `NewListing`, and
`FeatureToTwitterReport nil B` renders the `[New Listing]` template, whatever
the fields of `B` hold. -/
theorem new_listing_always_wins (B : Feature) :
    classify none B = Category.NewListing ∧
    V2.FeatureToTwitterReport none B =
      (twitterTrimmed ("[New Listing] C++" ++ toString B.cppVersion ++ " - \"" ++ B.name
        ++ "\".\n\nSupport:\n" ++ V2.compilerSupportListing B true true true), none) :=
  ⟨rfl, rfl⟩

/-- C2: the concrete scenario (prev: GCC none, Clang full "6", MSVC none;
next: GCC full "9" ("still buggy")) classifies as `SupportLevelChanged` with
changed-set exactly {GCC}, and renders a from-block showing `GCC - [no]` and a
to-block showing `GCC - [yes] 9(still buggy)` with no Clang or MSVC lines. -/
theorem support_level_scenario :
    classify (some scenarioPrev) scenarioNext = Category.SupportLevelChanged ∧
    decide (scenarioPrev.gccSupport ≠ scenarioNext.gccSupport) = true ∧
    decide (scenarioPrev.clangSupport ≠ scenarioNext.clangSupport) = false ∧
    decide (scenarioPrev.msvcSupport ≠ scenarioNext.msvcSupport) = false ∧
    V2.FeatureToTwitterReport (some scenarioPrev) scenarioNext =
      ("[Support Update] C++17 - \"X\".\n\nFrom:\nGCC - [no]\n\nto:\nGCC - [yes] 9(still buggy)",
        none) := by
  refine ⟨by decide, by decide, by decide, by decide, ?_⟩
  decide

lemma slc_eq_false_iff (p n : Feature) :
    isReportTypeSupportLevelChanged p n = false ↔
      (p.gccSupport = n.gccSupport ∧ p.clangSupport = n.clangSupport ∧
       p.msvcSupport = n.msvcSupport) := by
  simp only [isReportTypeSupportLevelChanged, Bool.or_eq_false_iff,
    decide_eq_false_iff_not, ne_eq, not_not, and_assoc]

lemma tc_eq_false_iff (p n : Feature) :
    isReportTypeTextChanged p n = false ↔
      (p.gccDisplayText = n.gccDisplayText ∧ p.gccExtraText = n.gccExtraText ∧
       p.clangDisplayText = n.clangDisplayText ∧ p.clangExtraText = n.clangExtraText ∧
       p.msvcDisplayText = n.msvcDisplayText ∧ p.msvcExtraText = n.msvcExtraText) := by
  simp only [isReportTypeTextChanged, Bool.or_eq_false_iff,
    decide_eq_false_iff_not, ne_eq, not_not, and_assoc]

/-- C3: when no vendor's support level differs but some vendor's display or
extra text does, the classifier yields `TextChanged`. -/
theorem text_change_classified (A B : Feature)
    (hg : A.gccSupport = B.gccSupport)
    (hc : A.clangSupport = B.clangSupport)
    (hm : A.msvcSupport = B.msvcSupport)
    (htext : A.gccDisplayText ≠ B.gccDisplayText ∨ A.gccExtraText ≠ B.gccExtraText ∨
      A.clangDisplayText ≠ B.clangDisplayText ∨ A.clangExtraText ≠ B.clangExtraText ∨
      A.msvcDisplayText ≠ B.msvcDisplayText ∨ A.msvcExtraText ≠ B.msvcExtraText) :
    classify (some A) B = Category.TextChanged := by
  have h1 : isReportTypeSupportLevelChanged A B = false :=
    (slc_eq_false_iff A B).mpr ⟨hg, hc, hm⟩
  have h2 : isReportTypeTextChanged A B = true := by
    simp only [isReportTypeTextChanged, Bool.or_eq_true, decide_eq_true_eq]
    tauto
  simp only [classify, h1, h2, Bool.false_eq_true, if_false, if_true]

/-- C3 witness: a concrete pair differing only in GCC display text classifies
as `TextChanged`. -/
theorem text_change_classified_witness :
    classify (some baseFeature) { baseFeature with gccDisplayText := ⟨true, "10"⟩ }
      = Category.TextChanged :=
  text_change_classified baseFeature _ rfl rfl rfl (Or.inl (by decide))

lemma strTake_length (s : String) (n : Nat) : (strTake s n).length = min n s.length := by
  show (s.data.take n).length = min n s.data.length
  exact List.length_take n s.data

lemma twitterTrimmed_length_le (s : String) : (twitterTrimmed s).length ≤ TrimLimit := by
  have hT : TrimLimit = 307 := by decide
  have h3 : ("..." : String).length = 3 := by decide
  unfold twitterTrimmed
  split
  · rw [String.length_append, strTake_length, h3, hT]
    rcases le_total (307 - 3) s.length with h | h
    · rw [min_eq_left h]
    · rw [min_eq_right h]
      omega
  · rename_i h
    rw [hT] at h ⊢
    omega

/-- C4: `TrimLimit` computes to 307; every report (every branch, the error
branch included) is at most `TrimLimit` characters long; and a string longer
than `TrimLimit` is trimmed to its first `TrimLimit - 3` characters followed
by `"..."`, for a total length of exactly `TrimLimit`. -/
theorem report_length_bounded :
    TrimLimit = 307 ∧
    (∀ (previous : Option Feature) (next : Feature),
      ((V2.FeatureToTwitterReport previous next).1).length ≤ TrimLimit) ∧
    (∀ s : String, s.length > TrimLimit →
      twitterTrimmed s = strTake s (TrimLimit - 3) ++ "..." ∧
      (twitterTrimmed s).length = TrimLimit) := by
  refine ⟨by decide, ?_, ?_⟩
  · intro previous next
    match previous with
    | none => exact twitterTrimmed_length_le _
    | some p =>
      simp only [V2.FeatureToTwitterReport]
      split
      · exact twitterTrimmed_length_le _
      · split
        · exact twitterTrimmed_length_le _
        · simp [String.length]
  · intro s hs
    have htrim : twitterTrimmed s = strTake s (TrimLimit - 3) ++ "..." := by
      unfold twitterTrimmed
      rw [if_pos hs]
    refine ⟨htrim, ?_⟩
    have h3 : ("..." : String).length = 3 := by decide
    have hT : TrimLimit = 307 := by decide
    rw [htrim, String.length_append, strTake_length, h3, hT]
    rw [hT] at hs
    rw [min_eq_left (by omega)]

set_option maxRecDepth 4096 in
/-- C4 witness: a 308-character string exceeds the limit, is trimmed to its
first 304 characters plus an ellipsis, and ends up exactly 307 characters. -/
theorem report_length_bounded_witness :
    (String.mk (List.replicate 308 'a')).length > TrimLimit ∧
    twitterTrimmed (String.mk (List.replicate 308 'a')) =
      strTake (String.mk (List.replicate 308 'a')) (TrimLimit - 3) ++ "..." ∧
    (twitterTrimmed (String.mk (List.replicate 308 'a'))).length = TrimLimit :=
  ⟨by decide, report_length_bounded.2.2 _ (by decide)⟩

/-- C5: the report carries a non-nil `"cannot handle"` error exactly when
`previous` is non-nil and no vendor's support level, display text or extra
text differs (paper fields and other non-classifier fields may differ), and
the text returned alongside the error is empty. -/
theorem unclassified_error_iff (previous : Option Feature) (next : Feature) :
    (((V2.FeatureToTwitterReport previous next).2).isSome = true ↔
      ∃ p, previous = some p ∧
        p.gccSupport = next.gccSupport ∧ p.clangSupport = next.clangSupport ∧
        p.msvcSupport = next.msvcSupport ∧
        p.gccDisplayText = next.gccDisplayText ∧ p.gccExtraText = next.gccExtraText ∧
        p.clangDisplayText = next.clangDisplayText ∧ p.clangExtraText = next.clangExtraText ∧
        p.msvcDisplayText = next.msvcDisplayText ∧ p.msvcExtraText = next.msvcExtraText) ∧
    (((V2.FeatureToTwitterReport previous next).2).isSome = true →
      V2.FeatureToTwitterReport previous next = ("", some "cannot handle")) := by
  match previous with
  | none =>
    constructor
    · simp [V2.FeatureToTwitterReport, V2.newListingReport]
    · intro h
      simp [V2.FeatureToTwitterReport, V2.newListingReport] at h
  | some p =>
    by_cases h1 : isReportTypeSupportLevelChanged p next = true
    · constructor
      · simp only [V2.FeatureToTwitterReport, h1, if_true, V2.supportUpdateReport]
        simp only [Option.isSome_none, Option.some.injEq]
        constructor
        · intro h; exact absurd h (by simp)
        · rintro ⟨q, hq, hgs, hcs, hms, -⟩
          cases hq
          have := (slc_eq_false_iff p next).mpr ⟨hgs, hcs, hms⟩
          rw [h1] at this
          exact absurd this (by simp)
      · intro h
        simp [V2.FeatureToTwitterReport, h1, V2.supportUpdateReport] at h
    · have h1' : isReportTypeSupportLevelChanged p next = false := by
        revert h1; cases isReportTypeSupportLevelChanged p next <;> simp
      by_cases h2 : isReportTypeTextChanged p next = true
      · constructor
        · simp only [V2.FeatureToTwitterReport, h1', if_neg, h2, if_true, V2.textUpdateReport]
          simp only [Bool.false_eq_true, if_false, Option.isSome_none, Option.some.injEq]
          constructor
          · intro h; exact absurd h (by simp)
          · rintro ⟨q, hq, -, -, -, hgd, hge, hcd, hce, hmd, hme⟩
            cases hq
            have := (tc_eq_false_iff p next).mpr ⟨hgd, hge, hcd, hce, hmd, hme⟩
            rw [h2] at this
            exact absurd this (by simp)
        · intro h
          simp [V2.FeatureToTwitterReport, h1', h2, V2.textUpdateReport] at h
      · have h2' : isReportTypeTextChanged p next = false := by
          revert h2; cases isReportTypeTextChanged p next <;> simp
        have heq := (slc_eq_false_iff p next).mp h1'
        have heqt := (tc_eq_false_iff p next).mp h2'
        constructor
        · simp only [V2.FeatureToTwitterReport, h1', h2']
          simp only [Bool.false_eq_true, if_false, Option.isSome_some, true_iff]
          exact ⟨p, rfl, heq.1, heq.2.1, heq.2.2, heqt.1, heqt.2.1, heqt.2.2.1,
            heqt.2.2.2.1, heqt.2.2.2.2.1, heqt.2.2.2.2.2⟩
        · intro _
          simp [V2.FeatureToTwitterReport, h1', h2']

/-- C5 witness: snapshots that differ only in the paper name produce the
`"cannot handle"` error with empty text. -/
theorem unclassified_error_iff_witness :
    ((V2.FeatureToTwitterReport (some baseFeature)
        { baseFeature with paperName := ⟨true, "P0000"⟩ }).2).isSome = true ∧
    V2.FeatureToTwitterReport (some baseFeature)
        { baseFeature with paperName := ⟨true, "P0000"⟩ } = ("", some "cannot handle") := by
  have h := unclassified_error_iff (some baseFeature)
    { baseFeature with paperName := ⟨true, "P0000"⟩ }
  have hsome := h.1.mpr ⟨baseFeature, rfl, rfl, rfl, rfl, rfl, rfl, rfl, rfl, rfl, rfl⟩
  exact ⟨hsome, h.2 hsome⟩

/-- C10: with a non-nil `next`, the pointer-level report function never hits a
nil dereference (it agrees with the total embedding), while the input
`(nil, nil)` slips past the new-listing guard and panics inside
`isReportTypeSupportLevelChanged` on the nil `previous`. -/
theorem nil_dereference_boundary :
    (∀ (previous : Option Feature) (next : Feature),
      V2.FeatureToTwitterReportP previous (some next) =
        some (V2.FeatureToTwitterReport previous next)) ∧
    V2.FeatureToTwitterReportP none none = none ∧
    V2.isReportTypeSupportLevelChangedP none none = none := by
  refine ⟨?_, rfl, rfl⟩
  intro previous next
  match previous with
  | none => rfl
  | some p =>
    show (if isReportTypeSupportLevelChanged p next then some (V2.supportUpdateReport p next)
      else if isReportTypeTextChanged p next then some (V2.textUpdateReport p next)
      else some ("", some "cannot handle")) = _
    cases h1 : isReportTypeSupportLevelChanged p next <;>
      cases h2 : isReportTypeTextChanged p next <;>
        simp [V2.FeatureToTwitterReport, h1, h2]

namespace V1

/-- Embeds revision-1 `compilerSupportString`: `no`, `yes - text`, or
`partial - text` depending on the support level. -/
def compilerSupportString (support : Int) (displayText : String) (extraText : String) : String :=
  if support = 0 then "no"
  else if support = 1 then "yes - " ++ compilerVersionTextString displayText extraText
  else "partial - " ++ compilerVersionTextString displayText extraText

/-- Embeds `countTrue`: how many of the given booleans are true (the Go
variadic parameter becomes a list). -/
def countTrue (bools : List Bool) : Nat :=
  bools.foldl (fun result b => if b then result + 1 else result) 0

/-- Embeds `compilerTextChangeStringOrNothing`: a `"old" -> "new"` string,
except that when both rendered version texts are empty it returns `""`. -/
def compilerTextChangeStringOrNothing (previousDisplayText previousExtraText
    nextDisplayText nextExtraText : String) : String :=
  let previousText := compilerVersionTextString previousDisplayText previousExtraText
  let nextText := compilerVersionTextString nextDisplayText nextExtraText
  if ¬(previousText = "" ∧ nextText = "") then
    "\"" ++ previousText ++ "\" -> \"" ++ nextText ++ "\""
  else ""

/-- Embeds the new-feature branch body of revision-1 `FeatureToTwitterReport`. -/
def newFeatureReport (next : Feature) : String × Option String :=
  let gccBit := compilerSupportString next.gccSupport
      (fromNullString next.gccDisplayText) (fromNullString next.gccExtraText)
  let clangBit := compilerSupportString next.clangSupport
      (fromNullString next.clangDisplayText) (fromNullString next.clangExtraText)
  let msvcBit := compilerSupportString next.msvcSupport
      (fromNullString next.msvcDisplayText) (fromNullString next.msvcExtraText)
  let reportText := "A new C++" ++ toString next.cppVersion ++ " feature \"" ++ next.name
      ++ "\" has been added at https://en.cppreference.com/w/cpp/compiler_support."
      ++ " Current compiler support: GCC: " ++ gccBit ++ ", Clang: " ++ clangBit
      ++ ", MSVC: " ++ msvcBit
  (twitterTrimmed reportText, none)

/-- Embeds the support-level-changed branch body of revision-1
`FeatureToTwitterReport` (all three vendors are listed, from `next` only). -/
def supportChangedReport (next : Feature) : String × Option String :=
  let gccBit := compilerSupportString next.gccSupport
      (fromNullString next.gccDisplayText) (fromNullString next.gccExtraText)
  let clangBit := compilerSupportString next.clangSupport
      (fromNullString next.clangDisplayText) (fromNullString next.clangExtraText)
  let msvcBit := compilerSupportString next.msvcSupport
      (fromNullString next.msvcDisplayText) (fromNullString next.msvcExtraText)
  let reportText := "Support for the C++" ++ toString next.cppVersion ++ " feature \""
      ++ next.name ++ "\" has been updated at"
      ++ " https://en.cppreference.com/w/cpp/compiler_support. Support after change: "
  let reportText := reportText ++ ("GCC: " ++ gccBit)
  let reportText := reportText ++ ", "
  let reportText := reportText ++ ("Clang: " ++ clangBit)
  let reportText := reportText ++ ", "
  let reportText := reportText ++ ("MSVC: " ++ msvcBit)
  (twitterTrimmed reportText, none)

/-- Embeds the text-changed branch body of revision-1
`FeatureToTwitterReport`: a pluralisation-aware header followed by per-vendor
`"old" -> "new"` entries for the vendors whose text changed. -/
def textChangedReport (previous next : Feature) : String × Option String :=
  let gccBit := compilerTextChangeStringOrNothing
      (fromNullString previous.gccDisplayText) (fromNullString previous.gccExtraText)
      (fromNullString next.gccDisplayText) (fromNullString next.gccExtraText)
  let clangBit := compilerTextChangeStringOrNothing
      (fromNullString previous.clangDisplayText) (fromNullString previous.clangExtraText)
      (fromNullString next.clangDisplayText) (fromNullString next.clangExtraText)
  let msvcBit := compilerTextChangeStringOrNothing
      (fromNullString previous.msvcDisplayText) (fromNullString previous.msvcExtraText)
      (fromNullString next.msvcDisplayText) (fromNullString next.msvcExtraText)
  let pluralSuffix := if countTrue [gccTextChanged previous next,
      clangTextChanged previous next, msvcTextChanged previous next] > 1 then "s" else ""
  let reportText := "Support text" ++ pluralSuffix ++ " changed for the C++"
      ++ toString next.cppVersion ++ " feature \"" ++ next.name ++ "\". Change"
      ++ pluralSuffix ++ ": "
  let reportText := if gccTextChanged previous next then reportText ++ ("GCC: " ++ gccBit)
    else reportText
  let reportText := if clangTextChanged previous next then
      (if gccTextChanged previous next then reportText ++ ", " else reportText)
      ++ ("Clang: " ++ clangBit)
    else reportText
  let reportText := if msvcTextChanged previous next then
      (if gccTextChanged previous next || clangTextChanged previous next then
        reportText ++ ", " else reportText)
      ++ ("MSVC: " ++ msvcBit)
    else reportText
  (twitterTrimmed reportText, none)

/-- Embeds revision-1 `FeatureToTwitterReport` under the precondition that
`next` is non-nil, with the same guard chain as revision 2. -/
def FeatureToTwitterReport (previous : Option Feature) (next : Feature) : String × Option String :=
  match previous with
  | none => newFeatureReport next
  | some p =>
    if isReportTypeSupportLevelChanged p next then supportChangedReport next
    else if isReportTypeTextChanged p next then textChangedReport p next
    else ("", some "cannot handle")

end V1

lemma tc_eq_flags (p n : Feature) :
    isReportTypeTextChanged p n =
      (gccTextChanged p n || clangTextChanged p n || msvcTextChanged p n) := by
  simp [isReportTypeTextChanged, gccTextChanged, clangTextChanged, msvcTextChanged,
    Bool.or_assoc]

lemma strTake_append (s t : String) (k : Nat) (h : s.length ≤ k) :
    strTake (s ++ t) k = s ++ strTake t (k - s.length) := by
  show (⟨((s ++ t).data).take k⟩ : String) = s ++ strTake t (k - s.length)
  rw [String.data_append, List.take_append_eq_append_take, List.take_of_length_le h]
  rfl

lemma twitterTrimmed_head (H t : String) (h : H.length ≤ TrimLimit - 3) :
    ∃ r, twitterTrimmed (H ++ t) = H ++ r := by
  unfold twitterTrimmed
  split
  · refine ⟨strTake t (TrimLimit - 3 - H.length) ++ "...", ?_⟩
    rw [strTake_append _ _ _ h, String.append_assoc]
  · exact ⟨t, rfl⟩

lemma exists_head_append {H base : String} (hbase : ∃ q, base = H ++ q) (X : String) :
    ∃ q, base ++ X = H ++ q := by
  obtain ⟨q, hq⟩ := hbase
  exact ⟨q ++ X, by rw [hq, String.append_assoc]⟩

lemma header_singular (v nm : String) :
    ∃ q, ("Support text" ++ " changed for the C++" ++ v ++ " feature \"" ++ nm
      ++ "\". Change" ++ ": ") = "Support text changed" ++ q := by
  refine ⟨" for the C++" ++ (v ++ (" feature \"" ++ (nm ++ ("\". Change" ++ ": ")))), ?_⟩
  simp only [String.append_assoc]
  rfl

lemma header_plural (v nm : String) :
    ∃ q, ("Support text" ++ "s" ++ " changed for the C++" ++ v ++ " feature \"" ++ nm
      ++ "\". Change" ++ "s" ++ ": ") = "Support texts changed" ++ q := by
  refine ⟨" for the C++" ++ (v ++ (" feature \"" ++ (nm ++ ("\". Change" ++ ("s" ++ ": "))))), ?_⟩
  simp only [String.append_assoc]
  rfl

lemma close_case {H base : String} (hbase : ∃ q, base = H ++ q)
    (hH : H.length ≤ TrimLimit - 3) : ∃ r, twitterTrimmed base = H ++ r := by
  obtain ⟨q, hq⟩ := hbase
  rw [hq]
  exact twitterTrimmed_head _ _ hH

/-- C7: a TextChanged report's header is singular (`Support text changed`)
when exactly one vendor's text differs and plural (`Support texts changed`)
when more than one vendor's text differs. -/
theorem text_change_pluralization (p n : Feature)
    (hcat : classify (some p) n = Category.TextChanged) :
    (V1.countTrue [gccTextChanged p n, clangTextChanged p n, msvcTextChanged p n] = 1 →
      ∃ r, (V1.FeatureToTwitterReport (some p) n).1 = "Support text changed" ++ r) ∧
    (V1.countTrue [gccTextChanged p n, clangTextChanged p n, msvcTextChanged p n] > 1 →
      ∃ r, (V1.FeatureToTwitterReport (some p) n).1 = "Support texts changed" ++ r) := by
  have hcl : classify (some p) n =
      (if isReportTypeSupportLevelChanged p n then Category.SupportLevelChanged
       else if isReportTypeTextChanged p n then Category.TextChanged
       else Category.Unclassified) := rfl
  rw [hcl] at hcat
  have hs : isReportTypeSupportLevelChanged p n = false := by
    cases h : isReportTypeSupportLevelChanged p n
    · rfl
    · rw [h] at hcat; simp at hcat
  have ht : isReportTypeTextChanged p n = true := by
    cases h : isReportTypeTextChanged p n
    · rw [hs, h] at hcat; simp at hcat
    · rfl
  have hrep : V1.FeatureToTwitterReport (some p) n = V1.textChangedReport p n := by
    show (if isReportTypeSupportLevelChanged p n then V1.supportChangedReport n
      else if isReportTypeTextChanged p n then V1.textChangedReport p n
      else ("", some "cannot handle")) = V1.textChangedReport p n
    rw [hs, ht]
    simp
  rw [hrep]
  cases hgb : gccTextChanged p n <;> cases hcb : clangTextChanged p n <;>
    cases hmb : msvcTextChanged p n
  · rw [tc_eq_flags, hgb, hcb, hmb] at ht
    simp at ht
  · constructor
    · intro _
      norm_num [V1.textChangedReport, V1.countTrue, hgb, hcb, hmb]
      exact close_case (exists_head_append (header_singular _ _) _) (by decide)
    · intro hcnt
      exact absurd hcnt (by decide)
  · constructor
    · intro _
      norm_num [V1.textChangedReport, V1.countTrue, hgb, hcb, hmb]
      exact close_case (exists_head_append (header_singular _ _) _) (by decide)
    · intro hcnt
      exact absurd hcnt (by decide)
  · constructor
    · intro hcnt
      exact absurd hcnt (by decide)
    · intro _
      norm_num [V1.textChangedReport, V1.countTrue, hgb, hcb, hmb]
      exact close_case (exists_head_append (exists_head_append (exists_head_append
        (header_plural _ _) _) _) _) (by decide)
  · constructor
    · intro _
      norm_num [V1.textChangedReport, V1.countTrue, hgb, hcb, hmb]
      exact close_case (exists_head_append (header_singular _ _) _) (by decide)
    · intro hcnt
      exact absurd hcnt (by decide)
  · constructor
    · intro hcnt
      exact absurd hcnt (by decide)
    · intro _
      norm_num [V1.textChangedReport, V1.countTrue, hgb, hcb, hmb]
      exact close_case (exists_head_append (exists_head_append (exists_head_append
        (header_plural _ _) _) _) _) (by decide)
  · constructor
    · intro hcnt
      exact absurd hcnt (by decide)
    · intro _
      norm_num [V1.textChangedReport, V1.countTrue, hgb, hcb, hmb]
      exact close_case (exists_head_append (exists_head_append (exists_head_append
        (header_plural _ _) _) _) _) (by decide)
  · constructor
    · intro hcnt
      exact absurd hcnt (by decide)
    · intro _
      norm_num [V1.textChangedReport, V1.countTrue, hgb, hcb, hmb]
      exact close_case (exists_head_append (exists_head_append (exists_head_append
        (exists_head_append (exists_head_append (header_plural _ _) _) _) _) _) _) (by decide)

/-- A snapshot differing from `baseFeature` in one vendor's display text. -/
def oneTextChangedNext : Feature := { baseFeature with gccDisplayText := ⟨true, "10"⟩ }

/-- A snapshot differing from `baseFeature` in two vendors' display texts. -/
def twoTextChangedNext : Feature :=
  { baseFeature with gccDisplayText := ⟨true, "10"⟩, clangDisplayText := ⟨true, "11"⟩ }

/-- C7 witness: one changed vendor yields the singular header, two changed
vendors yield the plural header, on concrete snapshots. -/
theorem text_change_pluralization_witness :
    (∃ r, (V1.FeatureToTwitterReport (some baseFeature) oneTextChangedNext).1 =
      "Support text changed" ++ r) ∧
    (∃ r, (V1.FeatureToTwitterReport (some baseFeature) twoTextChangedNext).1 =
      "Support texts changed" ++ r) := by
  constructor
  · exact (text_change_pluralization baseFeature oneTextChangedNext (by decide)).1 (by decide)
  · exact (text_change_pluralization baseFeature twoTextChangedNext (by decide)).2 (by decide)

/-- A snapshot whose only difference from `baseFeature` is that the GCC
display text goes from unset to set-but-empty: the vendor is in the text
changed-set while both of its rendered version texts are empty. -/
def nullToEmptyNext : Feature := { baseFeature with gccDisplayText := ⟨true, ""⟩ }

/-- C8 counterexample: with GCC in the changed-set only through the
null-versus-empty distinction and both rendered texts empty, the TextChanged
report still contains the dangling vendor label `GCC: ` — the vendor is not
excluded from the output entirely, only its quoted comparison string is. -/
theorem empty_text_vendor_counterexample :
    classify (some baseFeature) nullToEmptyNext = Category.TextChanged ∧
    gccTextChanged baseFeature nullToEmptyNext = true ∧
    compilerVersionTextString (fromNullString baseFeature.gccDisplayText)
      (fromNullString baseFeature.gccExtraText) = "" ∧
    compilerVersionTextString (fromNullString nullToEmptyNext.gccDisplayText)
      (fromNullString nullToEmptyNext.gccExtraText) = "" ∧
    V1.FeatureToTwitterReport (some baseFeature) nullToEmptyNext =
      ("Support text changed for the C++0 feature \"\". Change: GCC: ", none) ∧
    (V1.FeatureToTwitterReport (some baseFeature) nullToEmptyNext).1 ≠
      "Support text changed for the C++0 feature \"\". Change: " := by
  decide

/-- C8 amended: a vendor whose display and extra texts render empty in both
snapshots contributes an empty `"old" -> "new"` comparison string (so no
quoted comparison appears), but its vendor label still shows up in the report
when the vendor is in the changed-set. -/
theorem empty_text_vendor_amended (p n : Feature)
    (hcat : classify (some p) n = Category.TextChanged)
    (hgb : gccTextChanged p n = true)
    (hcb : clangTextChanged p n = false)
    (hmb : msvcTextChanged p n = false)
    (hpe : compilerVersionTextString (fromNullString p.gccDisplayText)
      (fromNullString p.gccExtraText) = "")
    (hne : compilerVersionTextString (fromNullString n.gccDisplayText)
      (fromNullString n.gccExtraText) = "") :
    V1.compilerTextChangeStringOrNothing (fromNullString p.gccDisplayText)
      (fromNullString p.gccExtraText) (fromNullString n.gccDisplayText)
      (fromNullString n.gccExtraText) = "" ∧
    V1.FeatureToTwitterReport (some p) n =
      (twitterTrimmed ("Support text changed for the C++" ++ toString n.cppVersion
        ++ " feature \"" ++ n.name ++ "\". Change: GCC: "), none) := by
  have hbit : V1.compilerTextChangeStringOrNothing (fromNullString p.gccDisplayText)
      (fromNullString p.gccExtraText) (fromNullString n.gccDisplayText)
      (fromNullString n.gccExtraText) = "" := by
    simp [V1.compilerTextChangeStringOrNothing, hpe, hne]
  refine ⟨hbit, ?_⟩
  have hcl : classify (some p) n =
      (if isReportTypeSupportLevelChanged p n then Category.SupportLevelChanged
       else if isReportTypeTextChanged p n then Category.TextChanged
       else Category.Unclassified) := rfl
  rw [hcl] at hcat
  have hs : isReportTypeSupportLevelChanged p n = false := by
    cases h : isReportTypeSupportLevelChanged p n
    · rfl
    · rw [h] at hcat; simp at hcat
  have ht : isReportTypeTextChanged p n = true := by
    cases h : isReportTypeTextChanged p n
    · rw [hs, h] at hcat; simp at hcat
    · rfl
  have hrep : V1.FeatureToTwitterReport (some p) n = V1.textChangedReport p n := by
    show (if isReportTypeSupportLevelChanged p n then V1.supportChangedReport n
      else if isReportTypeTextChanged p n then V1.textChangedReport p n
      else ("", some "cannot handle")) = V1.textChangedReport p n
    rw [hs, ht]
    simp
  rw [hrep]
  norm_num [V1.textChangedReport, V1.countTrue, hgb, hcb, hmb, hbit]
  simp only [String.append_assoc]
  rfl

/-- C8 amended witness: the concrete null-to-empty GCC scenario satisfies the
hypotheses and produces the dangling-label report. -/
theorem empty_text_vendor_amended_witness :
    V1.compilerTextChangeStringOrNothing (fromNullString baseFeature.gccDisplayText)
      (fromNullString baseFeature.gccExtraText) (fromNullString nullToEmptyNext.gccDisplayText)
      (fromNullString nullToEmptyNext.gccExtraText) = "" ∧
    V1.FeatureToTwitterReport (some baseFeature) nullToEmptyNext =
      (twitterTrimmed ("Support text changed for the C++" ++ toString nullToEmptyNext.cppVersion
        ++ " feature \"" ++ nullToEmptyNext.name ++ "\". Change: GCC: "), none) :=
  empty_text_vendor_amended baseFeature nullToEmptyNext (by decide) (by decide)
    (by decide) (by decide) (by decide) (by decide)

/-- Embeds `meaningfulDifference` of the sqlite service: true when the name,
spec version, paper fields, or any of the nine per-vendor support/display/extra
fields differ.  The timestamp and the two reported flags are not compared. -/
def meaningfulDifference (a b : Feature) : Bool :=
  decide (a.name ≠ b.name) ||
  decide (a.cppVersion ≠ b.cppVersion) ||
  decide (a.paperName ≠ b.paperName) ||
  decide (a.paperLink ≠ b.paperLink) ||
  decide (a.gccSupport ≠ b.gccSupport) ||
  decide (a.gccDisplayText ≠ b.gccDisplayText) ||
  decide (a.gccExtraText ≠ b.gccExtraText) ||
  decide (a.clangSupport ≠ b.clangSupport) ||
  decide (a.clangDisplayText ≠ b.clangDisplayText) ||
  decide (a.clangExtraText ≠ b.clangExtraText) ||
  decide (a.msvcSupport ≠ b.msvcSupport) ||
  decide (a.msvcDisplayText ≠ b.msvcDisplayText) ||
  decide (a.msvcExtraText ≠ b.msvcExtraText)

/-- Models the query `SELECT ... WHERE name=? ORDER BY timestamp DESC LIMIT 1`
over the features table, modelled as the list of rows in insertion order: the
row with the given name carrying the greatest timestamp (the earliest inserted
row wins a timestamp tie). -/
def mostRecentWithName (rows : List Feature) (name : String) : Option Feature :=
  rows.foldl (fun best row =>
    if row.name = name then
      match best with
      | none => some row
      | some b => if b.timestamp < row.timestamp then some row else some b
    else best) none

/-- Embeds `GetLastIfDiffers` (database failures are not modelled): the pair
`(differs, lastEntry)` returned to the ingestion loop. -/
def GetLastIfDiffers (rows : List Feature) (feature : Feature) : Bool × Option Feature :=
  match mostRecentWithName rows feature.name with
  | none => (true, none)
  | some lastEntry =>
    if meaningfulDifference feature lastEntry then (true, some lastEntry)
    else (false, none)

/-- Embeds `CreateEntry`: fills the automatic fields (timestamp from the
clock, both reported flags false) and inserts the row. -/
def CreateEntry (rows : List Feature) (feature : Feature) (now : Nat) : List Feature :=
  rows ++ [{ feature with timestamp := now, reportedToTwitter := false, reportedBroken := false }]

/-- Embeds `SetTwitterReported`:
`UPDATE features SET reported_to_twitter=1 WHERE name=:name AND timestamp=:timestamp`. -/
def SetTwitterReported (rows : List Feature) (name : String) (timestamp : Nat) : List Feature :=
  rows.map (fun r =>
    if r.name = name ∧ r.timestamp = timestamp then { r with reportedToTwitter := true } else r)

/-- Embeds `SetErrorReported`:
`UPDATE features SET reported_broken=1 WHERE name=:name AND timestamp=:timestamp`. -/
def SetErrorReported (rows : List Feature) (name : String) (timestamp : Nat) : List Feature :=
  rows.map (fun r =>
    if r.name = name ∧ r.timestamp = timestamp then { r with reportedBroken := true } else r)

/-- One store operation of the snapshot delivery lifecycle. -/
inductive StoreOp where
  | createEntry (feature : Feature) (now : Nat)
  | setTwitterReported (name : String) (timestamp : Nat)
  | setErrorReported (name : String) (timestamp : Nat)

/-- Applies one store operation to the features table. -/
def applyOp (rows : List Feature) : StoreOp → List Feature
  | StoreOp.createEntry f now => CreateEntry rows f now
  | StoreOp.setTwitterReported nm ts => SetTwitterReported rows nm ts
  | StoreOp.setErrorReported nm ts => SetErrorReported rows nm ts

/-- Applies a sequence of store operations, oldest first. -/
def applyOps (rows : List Feature) (ops : List StoreOp) : List Feature :=
  ops.foldl applyOp rows

lemma applyOp_length (rows : List Feature) (op : StoreOp) :
    rows.length ≤ (applyOp rows op).length := by
  cases op <;>
    simp [applyOp, CreateEntry, SetTwitterReported, SetErrorReported, Nat.le_succ]

lemma applyOp_get_mono (rows : List Feature) (op : StoreOp) (i : Nat)
    (h : i < rows.length) (h2 : i < (applyOp rows op).length) :
    ((rows.get ⟨i, h⟩).reportedToTwitter = true →
      ((applyOp rows op).get ⟨i, h2⟩).reportedToTwitter = true) ∧
    ((rows.get ⟨i, h⟩).reportedBroken = true →
      ((applyOp rows op).get ⟨i, h2⟩).reportedBroken = true) := by
  cases op with
  | createEntry f now =>
    have hg : (applyOp rows (StoreOp.createEntry f now)).get ⟨i, h2⟩ = rows.get ⟨i, h⟩ := by
      simp [applyOp, CreateEntry, List.getElem_append_left h]
    rw [hg]
    exact ⟨id, id⟩
  | setTwitterReported nm ts =>
    have hg : (applyOp rows (StoreOp.setTwitterReported nm ts)).get ⟨i, h2⟩ =
        (fun r => if r.name = nm ∧ r.timestamp = ts then
          { r with reportedToTwitter := true } else r) (rows.get ⟨i, h⟩) := by
      simp [applyOp, SetTwitterReported]
    rw [hg]
    dsimp only
    constructor <;> intro hh <;> split <;> simp_all
  | setErrorReported nm ts =>
    have hg : (applyOp rows (StoreOp.setErrorReported nm ts)).get ⟨i, h2⟩ =
        (fun r => if r.name = nm ∧ r.timestamp = ts then
          { r with reportedBroken := true } else r) (rows.get ⟨i, h⟩) := by
      simp [applyOp, SetErrorReported]
    rw [hg]
    dsimp only
    constructor <;> intro hh <;> split <;> simp_all

lemma applyOps_length (rows : List Feature) (ops : List StoreOp) :
    rows.length ≤ (applyOps rows ops).length := by
  induction ops generalizing rows with
  | nil => exact Nat.le_refl _
  | cons op ops ih =>
    have hstep : applyOps rows (op :: ops) = applyOps (applyOp rows op) ops := rfl
    rw [hstep]
    exact Nat.le_trans (applyOp_length rows op) (ih (applyOp rows op))

lemma applyOps_get_mono (ops : List StoreOp) (rows : List Feature) (i : Nat)
    (h : i < rows.length) (h2 : i < (applyOps rows ops).length) :
    ((rows.get ⟨i, h⟩).reportedToTwitter = true →
      ((applyOps rows ops).get ⟨i, h2⟩).reportedToTwitter = true) ∧
    ((rows.get ⟨i, h⟩).reportedBroken = true →
      ((applyOps rows ops).get ⟨i, h2⟩).reportedBroken = true) := by
  induction ops generalizing rows with
  | nil => exact ⟨id, id⟩
  | cons op ops ih =>
    have hlen : i < (applyOp rows op).length := Nat.lt_of_lt_of_le h (applyOp_length rows op)
    have hstep : applyOps rows (op :: ops) = applyOps (applyOp rows op) ops := rfl
    have h2' : i < (applyOps (applyOp rows op) ops).length := by rw [hstep] at h2; exact h2
    have hone := applyOp_get_mono rows op i h hlen
    have hrest := ih (applyOp rows op) hlen h2'
    constructor
    · intro hh
      have : ((applyOps rows (op :: ops)).get ⟨i, h2⟩) =
          ((applyOps (applyOp rows op) ops).get ⟨i, h2'⟩) := by
        congr 1
      rw [this]
      exact hrest.1 (hone.1 hh)
    · intro hh
      have : ((applyOps rows (op :: ops)).get ⟨i, h2⟩) =
          ((applyOps (applyOp rows op) ops).get ⟨i, h2'⟩) := by
        congr 1
      rw [this]
      exact hrest.2 (hone.2 hh)

/-- C6: the `GetLastIfDiffers` contract: `(true, none)` when no row with the
candidate's name is stored; with a most recent row present, `(true, some it)`
exactly when some compared field (name, spec version, paper fields, or the
nine per-vendor fields) differs, and `(false, none)` otherwise. -/
theorem get_last_if_differs_contract (rows : List Feature) (f : Feature) :
    (mostRecentWithName rows f.name = none → GetLastIfDiffers rows f = (true, none)) ∧
    (∀ prev, mostRecentWithName rows f.name = some prev →
      (meaningfulDifference f prev = true ↔
        (f.name ≠ prev.name ∨ f.cppVersion ≠ prev.cppVersion ∨
         f.paperName ≠ prev.paperName ∨ f.paperLink ≠ prev.paperLink ∨
         f.gccSupport ≠ prev.gccSupport ∨ f.gccDisplayText ≠ prev.gccDisplayText ∨
         f.gccExtraText ≠ prev.gccExtraText ∨ f.clangSupport ≠ prev.clangSupport ∨
         f.clangDisplayText ≠ prev.clangDisplayText ∨
         f.clangExtraText ≠ prev.clangExtraText ∨ f.msvcSupport ≠ prev.msvcSupport ∨
         f.msvcDisplayText ≠ prev.msvcDisplayText ∨
         f.msvcExtraText ≠ prev.msvcExtraText)) ∧
      (meaningfulDifference f prev = true → GetLastIfDiffers rows f = (true, some prev)) ∧
      (meaningfulDifference f prev = false → GetLastIfDiffers rows f = (false, none))) := by
  constructor
  · intro h
    unfold GetLastIfDiffers
    rw [h]
  · intro prev h
    refine ⟨?_, ?_, ?_⟩
    · simp [meaningfulDifference, or_assoc]
    · intro hd
      have hm : GetLastIfDiffers rows f =
          (if meaningfulDifference f prev then (true, some prev) else (false, none)) := by
        unfold GetLastIfDiffers
        rw [h]
      rw [hm, hd]
      simp
    · intro hd
      have hm : GetLastIfDiffers rows f =
          (if meaningfulDifference f prev then (true, some prev) else (false, none)) := by
        unfold GetLastIfDiffers
        rw [h]
      rw [hm, hd]
      simp

/-- C6 witness: the contract evaluated on an empty store, on a store whose
latest row differs, and on a store whose latest row does not differ. -/
theorem get_last_if_differs_contract_witness :
    GetLastIfDiffers [] baseFeature = (true, none) ∧
    GetLastIfDiffers [scenarioPrev] scenarioNext = (true, some scenarioPrev) ∧
    GetLastIfDiffers [scenarioPrev] scenarioPrev = (false, none) :=
  ⟨(get_last_if_differs_contract [] baseFeature).1 (by decide),
   (((get_last_if_differs_contract [scenarioPrev] scenarioNext).2 scenarioPrev
      (by decide)).2.1) (by decide),
   (((get_last_if_differs_contract [scenarioPrev] scenarioPrev).2 scenarioPrev
      (by decide)).2.2) (by decide)⟩

/-- C9: delivery flags only move forward.  Creation inserts the row with both
flags false; `SetTwitterReported` touches only `reported_to_twitter` of rows
matching the `(name, timestamp)` key and `SetErrorReported` only
`reported_broken`; and over any sequence of store operations a stored row's
true flag is never reset to false. -/
theorem delivery_state_monotone :
    (∀ (rows : List Feature) (f : Feature) (now : Nat),
      ∃ r, CreateEntry rows f now = rows ++ [r] ∧ r.reportedToTwitter = false ∧
        r.reportedBroken = false ∧ r.name = f.name ∧ r.timestamp = now) ∧
    (∀ (rows : List Feature) (nm : String) (ts : Nat) (i : Nat)
      (h : i < rows.length) (h2 : i < (SetTwitterReported rows nm ts).length),
      ((SetTwitterReported rows nm ts).get ⟨i, h2⟩).reportedBroken =
        (rows.get ⟨i, h⟩).reportedBroken ∧
      (((rows.get ⟨i, h⟩).name = nm ∧ (rows.get ⟨i, h⟩).timestamp = ts) →
        ((SetTwitterReported rows nm ts).get ⟨i, h2⟩).reportedToTwitter = true) ∧
      (¬((rows.get ⟨i, h⟩).name = nm ∧ (rows.get ⟨i, h⟩).timestamp = ts) →
        (SetTwitterReported rows nm ts).get ⟨i, h2⟩ = rows.get ⟨i, h⟩)) ∧
    (∀ (rows : List Feature) (nm : String) (ts : Nat) (i : Nat)
      (h : i < rows.length) (h2 : i < (SetErrorReported rows nm ts).length),
      ((SetErrorReported rows nm ts).get ⟨i, h2⟩).reportedToTwitter =
        (rows.get ⟨i, h⟩).reportedToTwitter ∧
      (((rows.get ⟨i, h⟩).name = nm ∧ (rows.get ⟨i, h⟩).timestamp = ts) →
        ((SetErrorReported rows nm ts).get ⟨i, h2⟩).reportedBroken = true) ∧
      (¬((rows.get ⟨i, h⟩).name = nm ∧ (rows.get ⟨i, h⟩).timestamp = ts) →
        (SetErrorReported rows nm ts).get ⟨i, h2⟩ = rows.get ⟨i, h⟩)) ∧
    (∀ (ops : List StoreOp) (rows : List Feature) (i : Nat)
      (h : i < rows.length) (h2 : i < (applyOps rows ops).length),
      ((rows.get ⟨i, h⟩).reportedToTwitter = true →
        ((applyOps rows ops).get ⟨i, h2⟩).reportedToTwitter = true) ∧
      ((rows.get ⟨i, h⟩).reportedBroken = true →
        ((applyOps rows ops).get ⟨i, h2⟩).reportedBroken = true)) := by
  refine ⟨?_, ?_, ?_, applyOps_get_mono⟩
  · intro rows f now
    exact ⟨_, rfl, rfl, rfl, rfl, rfl⟩
  · intro rows nm ts i h h2
    have hg : (SetTwitterReported rows nm ts).get ⟨i, h2⟩ =
        (fun r => if r.name = nm ∧ r.timestamp = ts then
          { r with reportedToTwitter := true } else r) (rows.get ⟨i, h⟩) := by
      simp [SetTwitterReported]
    rw [hg]
    dsimp only
    refine ⟨?_, ?_, ?_⟩
    · split <;> simp_all
    · intro hk
      rw [if_pos hk]
    · intro hk
      rw [if_neg hk]
  · intro rows nm ts i h h2
    have hg : (SetErrorReported rows nm ts).get ⟨i, h2⟩ =
        (fun r => if r.name = nm ∧ r.timestamp = ts then
          { r with reportedBroken := true } else r) (rows.get ⟨i, h⟩) := by
      simp [SetErrorReported]
    rw [hg]
    dsimp only
    refine ⟨?_, ?_, ?_⟩
    · split <;> simp_all
    · intro hk
      rw [if_pos hk]
    · intro hk
      rw [if_neg hk]

/-- C9 witness: a concrete run — create a row, mark it tweeted, then mark it
broken — keeps both flags moving forward only. -/
theorem delivery_state_monotone_witness :
    (∃ r, CreateEntry [] scenarioPrev 5 = [] ++ [r] ∧ r.reportedToTwitter = false ∧
      r.reportedBroken = false ∧ r.name = scenarioPrev.name ∧ r.timestamp = 5) ∧
    ((SetTwitterReported (CreateEntry [] scenarioPrev 5) "X" 5).get
      ⟨0, by decide⟩).reportedToTwitter = true ∧
    ((applyOps (SetTwitterReported (CreateEntry [] scenarioPrev 5) "X" 5)
      [StoreOp.setErrorReported "X" 5]).get ⟨0, by decide⟩).reportedToTwitter = true :=
  ⟨delivery_state_monotone.1 [] scenarioPrev 5,
   (delivery_state_monotone.2.1 (CreateEntry [] scenarioPrev 5) "X" 5 0
      (by decide) (by decide)).2.1 (by decide),
   (delivery_state_monotone.2.2.2 [StoreOp.setErrorReported "X" 5]
      (SetTwitterReported (CreateEntry [] scenarioPrev 5) "X" 5) 0
      (by decide) (by decide)).1 (by decide)⟩
